import Mathlib

/-!
Verification of the token-based authentication and single-use action-token
subsystem of the Twinning-API repository.

The data model and the operations present in the repository sources
(`models.py`, `serializers.py`) are embedded shallowly: Django datetimes
become natural-number instants, `timedelta(minutes=m)` becomes addition of
`m` time units, the persisted tables become lists of records, and the
relevant setting dictionaries become structures.  Operations that the
repository only exercises through its tests (the per-request session-token
gate, session issuance, action-token redemption) are modelled from the
design specification and are marked as such in their doc comments.
-/

/-- The `User` model (models.py): the `username` field is removed
(`username = None`, the class attribute stays and reads back as `None`),
`email` is the unique identifier, and the framework-provided `is_active`
flag is the activity switch.  `password` holds the stored hash. -/
structure User where
  id : Nat
  email : String
  username : Option String := none
  password : String := ""
  is_active : Bool := true
  first_name : String := ""
deriving Repr, DecidableEq

/-- Settings dictionary `REST_FRAMEWORK_TEMPORARY_TOKENS` with the keys the
embedded code reads: `MINUTES` (session window) and `RENEW_ON_SUCCESS`. -/
structure TemporaryTokensSettings where
  MINUTES : Nat
  RENEW_ON_SUCCESS : Bool
deriving Repr, DecidableEq

/-- Settings dictionary `ACTIVATION_TOKENS` (models.py reads only the single
key `MINUTES`). -/
structure ActivationTokensSettings where
  MINUTES : Nat
deriving Repr, DecidableEq

/-- `TemporaryToken` (models.py): the DRF `Token` base contributes `key`,
`user` and `created` (auto_now_add); the subclass adds `expires`.  The `pk`
flag records whether the row is already persisted (`self.pk`). -/
structure TemporaryToken where
  key : String
  user : Nat
  created : Nat
  expires : Nat
  pk : Bool
deriving Repr, DecidableEq

/-- `TemporaryToken.save` (models.py lines 35-41): on first save (`not
self.pk`) sets `expires = now + MINUTES`; the base class stamps `created`
at insertion; later saves change nothing beyond persisting the fields. -/
def TemporaryToken.save (t : TemporaryToken) (cfg : TemporaryTokensSettings)
    (now : Nat) : TemporaryToken :=
  if t.pk then t
  else { t with created := now, expires := now + cfg.MINUTES, pk := true }

/-- `TemporaryToken.expired` (models.py lines 43-46):
`self.expires <= timezone.now()`. -/
def TemporaryToken.expired (t : TemporaryToken) (now : Nat) : Bool :=
  t.expires ≤ now

/-- `TemporaryToken.expire` (models.py lines 48-51): set `expires` to now
and save. -/
def TemporaryToken.expire (t : TemporaryToken) (cfg : TemporaryTokensSettings)
    (now : Nat) : TemporaryToken :=
  TemporaryToken.save { t with expires := now } cfg now

/-- The closed enumeration `ACTIONS_TYPE` of `ActionToken` (models.py). -/
inductive ActionType where
  | account_activation
  | password_change
deriving Repr, DecidableEq

/-- `ActionToken` (models.py): `key` is the primary key (a fresh, unsaved
instance has the empty/falsy key), `type` the declared action, `user` the
owner, `created` stamped at insertion (auto_now_add). -/
structure ActionToken where
  key : String
  type : ActionType
  user : Nat
  created : Nat
  expires : Nat
deriving Repr, DecidableEq

/-- `ActionToken.save` (models.py lines 99-105): on a fresh instance (`not
self.key`) generates the key and sets
`expires = now + ACTIVATION_TOKENS['MINUTES']`; `created` is stamped by
auto_now_add at the same insertion.  The generated key is passed in as
`freshKey` (the entropy source is external). -/
def ActionToken.save (t : ActionToken) (cfg : ActivationTokensSettings)
    (now : Nat) (freshKey : String) : ActionToken :=
  if t.key = "" then
    { t with key := freshKey, created := now, expires := now + cfg.MINUTES }
  else t

/-- `ActionToken.expired` (models.py lines 112-115):
`self.expires <= timezone.now()`. -/
def ActionToken.expired (t : ActionToken) (now : Nat) : Bool :=
  t.expires ≤ now

/-- `ActionToken.expire` (models.py lines 117-120): set `expires` to now and
save (the key is already set, so save persists without regenerating). -/
def ActionToken.expire (t : ActionToken) (cfg : ActivationTokensSettings)
    (now : Nat) (freshKey : String) : ActionToken :=
  ActionToken.save { t with expires := now } cfg now freshKey

/-- One hexadecimal digit, as produced by `binascii.hexlify` for a nibble
value 0-15 (values ≥ 15 cannot arise from a byte nibble). -/
def hexDigit (n : Nat) : Char :=
  match n with
  | 0 => '0' | 1 => '1' | 2 => '2' | 3 => '3'
  | 4 => '4' | 5 => '5' | 6 => '6' | 7 => '7'
  | 8 => '8' | 9 => '9' | 10 => 'a' | 11 => 'b'
  | 12 => 'c' | 13 => 'd' | 14 => 'e' | _ => 'f'

/-- `binascii.hexlify`: each byte becomes its two hex digits, high nibble
first. -/
def hexlify : List Nat → List Char
  | [] => []
  | b :: bs => hexDigit (b / 16) :: hexDigit (b % 16) :: hexlify bs

/-- `ActionToken.generate_key` (models.py lines 107-110):
`binascii.hexlify(os.urandom(20)).decode()`.  The 20 bytes drawn from
`os.urandom` are the `entropy` argument. -/
def generate_key (entropy : List Nat) : String :=
  String.mk (hexlify entropy)

/-- A character is a lowercase hexadecimal digit. -/
def isHexChar (c : Char) : Bool :=
  c = '0' ∨ c = '1' ∨ c = '2' ∨ c = '3' ∨ c = '4' ∨ c = '5' ∨ c = '6' ∨
  c = '7' ∨ c = '8' ∨ c = '9' ∨ c = 'a' ∨ c = 'b' ∨ c = 'c' ∨ c = 'd' ∨
  c = 'e' ∨ c = 'f'

theorem hexDigit_isHex (n : Nat) : isHexChar (hexDigit n) = true := by
  unfold hexDigit
  split <;> decide

theorem hexlify_length (bs : List Nat) : (hexlify bs).length = 2 * bs.length := by
  induction bs with
  | nil => rfl
  | cons b bs ih => simp [hexlify, ih]; omega

theorem hexlify_isHex (bs : List Nat) :
    ∀ c ∈ hexlify bs, isHexChar c = true := by
  induction bs with
  | nil => intro c hc; cases hc
  | cons b bs ih =>
    intro c hc
    simp only [hexlify, List.mem_cons] at hc
    rcases hc with h | h | h
    · rw [h]; exact hexDigit_isHex (b / 16)
    · rw [h]; exact hexDigit_isHex (b % 16)
    · exact ih c h

/-- C9: every key produced by the key generator from 20 random bytes is
exactly 40 hexadecimal characters (160 bits of entropy, hex-encoded). -/
theorem C9_generate_key_forty_hex (entropy : List Nat)
    (hlen : entropy.length = 20) :
    (generate_key entropy).length = 40 ∧
      ∀ c ∈ (generate_key entropy).toList, isHexChar c = true := by
  constructor
  · show (hexlify entropy).length = 40
    rw [hexlify_length, hlen]
  · intro c hc
    exact hexlify_isHex entropy c hc

/-- C9 witness: a concrete 20-byte entropy input. -/
theorem C9_generate_key_forty_hex_witness :
    (generate_key [0, 1, 2, 3, 4, 5, 6, 7, 8, 9, 10, 255, 254, 253, 252,
      251, 250, 249, 248, 16]).length = 40 ∧
      ∀ c ∈ (generate_key [0, 1, 2, 3, 4, 5, 6, 7, 8, 9, 10, 255, 254, 253,
        252, 251, 250, 249, 248, 16]).toList, isHexChar c = true :=
  C9_generate_key_forty_hex _ (by decide)

/-- C6: for both token kinds, being expired is exactly the comparison
`expires ≤ now` — a pure function of the stored timestamp and the current
time, so any two tokens with equal `expires` agree on expiry at every
instant (there is no separate stored validity flag that could drift). -/
theorem C6_expired_pure_function :
    (∀ (t : TemporaryToken) (now : Nat),
      t.expired now = decide (t.expires ≤ now)) ∧
    (∀ (a : ActionToken) (now : Nat),
      a.expired now = decide (a.expires ≤ now)) ∧
    (∀ (t u : TemporaryToken) (now : Nat),
      t.expires = u.expires → t.expired now = u.expired now) ∧
    (∀ (a b : ActionToken) (now : Nat),
      a.expires = b.expires → a.expired now = b.expired now) := by
  refine ⟨fun t now => rfl, fun a now => rfl, ?_, ?_⟩
  · intro t u now h
    simp [TemporaryToken.expired, h]
  · intro a b now h
    simp [ActionToken.expired, h]

/-- C6 witness: two session tokens and two action tokens differing in every
field but `expires` agree on expiry. -/
theorem C6_expired_pure_function_witness :
    TemporaryToken.expired ⟨"a", 1, 0, 5, true⟩ 5
      = TemporaryToken.expired ⟨"b", 2, 3, 5, false⟩ 5 ∧
    ActionToken.expired ⟨"c", ActionType.account_activation, 1, 0, 9⟩ 4
      = ActionToken.expired ⟨"d", ActionType.password_change, 2, 1, 9⟩ 4 :=
  ⟨C6_expired_pure_function.2.2.1 _ _ 5 rfl,
   C6_expired_pure_function.2.2.2 _ _ 4 rfl⟩

/-- C8: a session token's `expires` is set at first save to the creation
time plus the configured session window, is strictly later than `created`
when the window is positive, and saving an already-persisted token leaves
`expires` (and `created`) exactly as they were. -/
theorem C8_session_expires_set_once (cfg : TemporaryTokensSettings)
    (now now2 : Nat) (t : TemporaryToken) :
    (t.pk = false →
      (t.save cfg now).expires = (t.save cfg now).created + cfg.MINUTES ∧
      (0 < cfg.MINUTES → (t.save cfg now).created < (t.save cfg now).expires) ∧
      ((t.save cfg now).save cfg now2).expires = (t.save cfg now).expires) ∧
    (t.pk = true →
      (t.save cfg now).expires = t.expires ∧
      (t.save cfg now).created = t.created) := by
  constructor
  · intro hpk
    simp [TemporaryToken.save, hpk]
    try omega
  · intro hpk
    simp [TemporaryToken.save, hpk]

/-- C8 witness: a fresh token saved at time 10 with a 30-minute window, and
a persisted token whose save changes nothing. -/
theorem C8_session_expires_set_once_witness :
    ((TemporaryToken.mk "k" 1 0 0 false).save ⟨30, true⟩ 10).expires
      = ((TemporaryToken.mk "k" 1 0 0 false).save ⟨30, true⟩ 10).created + 30 ∧
    ((TemporaryToken.mk "k2" 1 7 99 true).save ⟨30, true⟩ 10).expires = 99 :=
  ⟨((C8_session_expires_set_once ⟨30, true⟩ 10 0 _).1 rfl).1,
   ((C8_session_expires_set_once ⟨30, true⟩ 10 0 _).2 rfl).1⟩

/-- In a list whose element under `keyOf` equals `k` is found as `t`,
mapping the pointwise update `upd` (which preserves keys) over the list
makes the same lookup find exactly `upd t`. -/
theorem find?_map_update {α β : Type} [DecidableEq β] (keyOf : α → β)
    (upd : α → α) (hkeep : ∀ a, keyOf (upd a) = keyOf a) (k : β) :
    ∀ (l : List α) (t : α), l.find? (fun s => keyOf s = k) = some t →
      (l.map (fun s => if keyOf s = k then upd s else s)).find?
        (fun s => keyOf s = k) = some (upd t) := by
  intro l
  induction l with
  | nil => intro t h; cases h
  | cons s l ih =>
    intro t h
    by_cases hs : keyOf s = k
    · rw [List.find?_cons_of_pos _ (by simp [hs])] at h
      injection h with h
      subst h
      simp only [List.map_cons, if_pos hs]
      exact List.find?_cons_of_pos _ (by simp [hkeep, hs])
    · rw [List.find?_cons_of_neg _ (by simp [hs])] at h
      simp only [List.map_cons, if_neg hs]
      rw [List.find?_cons_of_neg _ (by simp [hs])]
      exact ih t h

/-- After removing every element whose key is `k`, a lookup for `k` fails. -/
theorem find?_filter_ne {α β : Type} [DecidableEq β] (keyOf : α → β)
    (k : β) (l : List α) :
    (l.filter (fun s => ¬ (keyOf s = k))).find? (fun s => keyOf s = k)
      = none := by
  rw [List.find?_eq_none]
  intro x hx
  rw [List.mem_filter] at hx
  simpa using hx.2

/-- Lookup of a session token by its key (the store is the persisted
`TemporaryToken` table). -/
def findSession (store : List TemporaryToken) (key : String) :
    Option TemporaryToken :=
  store.find? (fun t => t.key = key)

/-- Lookup of a user record by id in the user directory. -/
def findUser (users : List User) (uid : Nat) : Option User :=
  users.find? (fun u => u.id = uid)

/-- The three failure classes of the session-token gate. -/
inductive AuthFailureKind where
  | invalidToken
  | expiredToken
  | inactiveUser
deriving Repr, DecidableEq

/-- The fixed user-visible payload (body, HTTP status) of each gate
failure, as asserted by tests_view_TemporaryTokenAuthentication.py. -/
def failurePayload : AuthFailureKind → String × Nat
  | AuthFailureKind.invalidToken =>
      ("\x7b\"detail\": \"Invalid token\"\x7d", 401)
  | AuthFailureKind.expiredToken =>
      ("\x7b\"detail\": \"Token has expired\"\x7d", 401)
  | AuthFailureKind.inactiveUser =>
      ("\x7b\"detail\": \"User inactive or deleted\"\x7d", 401)

/-- Modelled from the spec: `SessionTokenService.validate` (the
`TemporaryTokenAuthentication` class is not among the repository sources;
only its tests are).  Looks up the key; fails with `InvalidToken` when no
record matches, `ExpiredToken` when `now >= expires` (leaving the record
in place), `InactiveUser` when the owner is missing or inactive; otherwise
succeeds, and when `RENEW_ON_SUCCESS` is set advances the stored `expires`
to `now + MINUTES` and reports `renewed = true`. -/
def validate (cfg : TemporaryTokensSettings) (now : Nat) (users : List User)
    (store : List TemporaryToken) (key : String) :
    (AuthFailureKind ⊕ (User × Bool)) × List TemporaryToken :=
  match findSession store key with
  | none => (Sum.inl AuthFailureKind.invalidToken, store)
  | some t =>
    if t.expires ≤ now then (Sum.inl AuthFailureKind.expiredToken, store)
    else
      match findUser users t.user with
      | none => (Sum.inl AuthFailureKind.inactiveUser, store)
      | some u =>
        if u.is_active = false then
          (Sum.inl AuthFailureKind.inactiveUser, store)
        else if cfg.RENEW_ON_SUCCESS then
          (Sum.inr (u, true),
            store.map (fun s =>
              if s.key = key then { s with expires := now + cfg.MINUTES }
              else s))
        else (Sum.inr (u, false), store)

/-- C1: the gate fails in priority order — `InvalidToken` when no record
matches the key; otherwise `ExpiredToken` when `now ≥ expires`, with the
record left in place; otherwise `InactiveUser` when the owner's active
flag is false — and each failure carries exactly its fixed literal 401
payload. -/
theorem C1_validate_failure_taxonomy (cfg : TemporaryTokensSettings)
    (now : Nat) (users : List User) (store : List TemporaryToken)
    (key : String) :
    (findSession store key = none →
      validate cfg now users store key
        = (Sum.inl AuthFailureKind.invalidToken, store)) ∧
    (∀ t, findSession store key = some t → t.expires ≤ now →
      validate cfg now users store key
        = (Sum.inl AuthFailureKind.expiredToken, store)) ∧
    (∀ t u, findSession store key = some t → now < t.expires →
      findUser users t.user = some u → u.is_active = false →
      validate cfg now users store key
        = (Sum.inl AuthFailureKind.inactiveUser, store)) ∧
    failurePayload AuthFailureKind.invalidToken
      = ("\x7b\"detail\": \"Invalid token\"\x7d", 401) ∧
    failurePayload AuthFailureKind.expiredToken
      = ("\x7b\"detail\": \"Token has expired\"\x7d", 401) ∧
    failurePayload AuthFailureKind.inactiveUser
      = ("\x7b\"detail\": \"User inactive or deleted\"\x7d", 401) := by
  refine ⟨?_, ?_, ?_, rfl, rfl, rfl⟩
  · intro h
    simp [validate, h]
  · intro t h1 h2
    simp [validate, h1, h2]
  · intro t u h1 h2 h3 h4
    have h5 : ¬ t.expires ≤ now := Nat.not_le.mpr h2
    simp [validate, h1, h5, h3, h4]

/-- C1 witness: a store with an expired token and a token owned by an
inactive user, probed with an absent key and with each of those keys. -/
theorem C1_validate_failure_taxonomy_witness :
    validate ⟨30, true⟩ 10
      [⟨1, "a@x.com", none, "", true, ""⟩, ⟨2, "b@x.com", none, "", false, ""⟩]
      [⟨"e", 1, 0, 5, true⟩, ⟨"i", 2, 0, 100, true⟩] "missing"
      = (Sum.inl AuthFailureKind.invalidToken,
          [⟨"e", 1, 0, 5, true⟩, ⟨"i", 2, 0, 100, true⟩]) ∧
    validate ⟨30, true⟩ 10
      [⟨1, "a@x.com", none, "", true, ""⟩, ⟨2, "b@x.com", none, "", false, ""⟩]
      [⟨"e", 1, 0, 5, true⟩, ⟨"i", 2, 0, 100, true⟩] "e"
      = (Sum.inl AuthFailureKind.expiredToken,
          [⟨"e", 1, 0, 5, true⟩, ⟨"i", 2, 0, 100, true⟩]) ∧
    validate ⟨30, true⟩ 10
      [⟨1, "a@x.com", none, "", true, ""⟩, ⟨2, "b@x.com", none, "", false, ""⟩]
      [⟨"e", 1, 0, 5, true⟩, ⟨"i", 2, 0, 100, true⟩] "i"
      = (Sum.inl AuthFailureKind.inactiveUser,
          [⟨"e", 1, 0, 5, true⟩, ⟨"i", 2, 0, 100, true⟩]) :=
  ⟨(C1_validate_failure_taxonomy ⟨30, true⟩ 10 _ _ "missing").1 (by decide),
   (C1_validate_failure_taxonomy ⟨30, true⟩ 10 _ _ "e").2.1
     ⟨"e", 1, 0, 5, true⟩ (by decide) (by decide),
   (C1_validate_failure_taxonomy ⟨30, true⟩ 10 _ _ "i").2.2.1
     ⟨"i", 2, 0, 100, true⟩ ⟨2, "b@x.com", none, "", false, ""⟩
     (by decide) (by decide) (by decide) (by decide)⟩

/-- C4: on a successful `validate`, with renewal enabled the stored
`expires` becomes `now + MINUTES` — strictly later than the previous value
whenever the token was issued or last renewed strictly before `now` — and
`renewed = true` is reported; with renewal disabled the store (hence the
token's `expires`) is left exactly unchanged and `renewed = false`. -/
theorem C4_validate_renewal (cfg : TemporaryTokensSettings) (now : Nat)
    (users : List User) (store : List TemporaryToken) (key : String)
    (t : TemporaryToken) (hf : findSession store key = some t)
    (hIss : ∃ t0, t0 < now ∧ t.expires = t0 + cfg.MINUTES) :
    ∀ u r store2,
      validate cfg now users store key = (Sum.inr (u, r), store2) →
      (cfg.RENEW_ON_SUCCESS = true →
        r = true ∧
        findSession store2 key = some { t with expires := now + cfg.MINUTES } ∧
        t.expires < now + cfg.MINUTES) ∧
      (cfg.RENEW_ON_SUCCESS = false → r = false ∧ store2 = store) := by
  intro u r store2 hv
  simp only [validate, hf] at hv
  by_cases he : t.expires ≤ now
  · simp [he] at hv
  cases hu : findUser users t.user with
  | none => simp [he, hu] at hv
  | some u2 =>
    by_cases ha : u2.is_active = false
    · simp [he, hu, ha] at hv
    cases hr : cfg.RENEW_ON_SUCCESS with
    | false =>
      simp [he, hu, ha, hr] at hv
      constructor
      · intro hcontra
        simp [hr] at hcontra
      · intro hdummy
        exact ⟨hv.1.2, hv.2.symm⟩
    | true =>
      simp [he, hu, ha, hr] at hv
      constructor
      · intro hdummy
        obtain ⟨t0, h0, hEq⟩ := hIss
        refine ⟨hv.1.2, ?_, by omega⟩
        rw [← hv.2]
        exact find?_map_update TemporaryToken.key
          (fun s => { s with expires := now + cfg.MINUTES }) (fun a => rfl)
          key store t hf
      · intro hcontra
        simp [hr] at hcontra

/-- C4 witness: a token issued at time 5 with a 30-minute window (expires
35), validated at time 10 with renewal on: the stored expiry becomes 40,
strictly later than 35. -/
theorem C4_validate_renewal_witness :
    findSession [TemporaryToken.mk "k" 1 0 40 true] "k"
      = some ⟨"k", 1, 0, 40, true⟩ ∧ (35 : Nat) < 10 + 30 :=
  have h := (C4_validate_renewal ⟨30, true⟩ 10 [⟨1, "a@x.com", none, "", true, ""⟩]
      [⟨"k", 1, 0, 35, true⟩] "k" ⟨"k", 1, 0, 35, true⟩ (by decide)
      ⟨5, by omega, by decide⟩ ⟨1, "a@x.com", none, "", true, ""⟩ true
      [⟨"k", 1, 0, 40, true⟩] (by decide)).1 rfl
  ⟨h.2.1, h.2.2⟩

/-- Lookup of a session token by its owning user. -/
def findSessionByUser (store : List TemporaryToken) (uid : Nat) :
    Option TemporaryToken :=
  store.find? (fun t => t.user = uid)

/-- Modelled from the spec: `SessionTokenService.issue` on the success path
(the `ObtainTemporaryAuthToken` view is not among the repository sources).
If a session token already exists for the user its `expires` is overwritten
(re-issue); otherwise a single fresh record is created through
`TemporaryToken.save`. -/
def issueSession (cfg : TemporaryTokensSettings) (now : Nat)
    (freshKey : String) (uid : Nat) (store : List TemporaryToken) :
    List TemporaryToken :=
  match findSessionByUser store uid with
  | some _ =>
      store.map (fun t =>
        if t.user = uid then { t with expires := now + cfg.MINUTES } else t)
  | none => TemporaryToken.save ⟨freshKey, uid, 0, 0, false⟩ cfg now :: store

/-- C5: if the store holds at most one session token per user, then after
a successful re-issue it still does; a user who already held a token keeps
the same record (same key) with a refreshed `expires` and the store size
is unchanged, while a user with no token gets exactly one fresh record. -/
theorem C5_one_session_per_user (cfg : TemporaryTokensSettings) (now : Nat)
    (freshKey : String) (uid : Nat) (store : List TemporaryToken)
    (hdis : List.Pairwise (fun a b : TemporaryToken => a.user ≠ b.user) store) :
    List.Pairwise (fun a b : TemporaryToken => a.user ≠ b.user)
      (issueSession cfg now freshKey uid store) ∧
    (∀ t, findSessionByUser store uid = some t →
      (issueSession cfg now freshKey uid store).length = store.length ∧
      findSessionByUser (issueSession cfg now freshKey uid store) uid
        = some { t with expires := now + cfg.MINUTES }) ∧
    (findSessionByUser store uid = none →
      issueSession cfg now freshKey uid store
        = TemporaryToken.save ⟨freshKey, uid, 0, 0, false⟩ cfg now :: store) := by
  refine ⟨?_, ?_, ?_⟩
  · unfold issueSession
    cases hfind : findSessionByUser store uid with
    | none =>
      rw [List.pairwise_cons]
      constructor
      · intro b hb
        unfold findSessionByUser at hfind
        rw [List.find?_eq_none] at hfind
        have hbne := hfind b hb
        simp only [decide_eq_true_eq] at hbne
        simp [TemporaryToken.save]
        intro hcontra
        exact hbne hcontra.symm
      · exact hdis
    | some t0 =>
      refine List.Pairwise.map _ ?_ hdis
      intro a b hab
      by_cases ha : a.user = uid <;> by_cases hb : b.user = uid <;>
        simp [ha, hb] <;> omega
  · intro t hfind
    unfold issueSession
    rw [hfind]
    constructor
    · simp
    · exact find?_map_update TemporaryToken.user
        (fun s => { s with expires := now + cfg.MINUTES }) (fun a => rfl)
        uid store t hfind
  · intro hfind
    unfold issueSession
    rw [hfind]

/-- C5 witness: re-issuing for user 1, who already holds token "k1",
refreshes that record in place: same single-element store, same key. -/
theorem C5_one_session_per_user_witness :
    findSessionByUser
      (issueSession ⟨30, true⟩ 50 "fresh" 1 [⟨"k1", 1, 0, 30, true⟩]) 1
      = some ⟨"k1", 1, 0, 80, true⟩ ∧
    (issueSession ⟨30, true⟩ 50 "fresh" 1 [⟨"k1", 1, 0, 30, true⟩]).length
      = [TemporaryToken.mk "k1" 1 0 30 true].length :=
  have h := (C5_one_session_per_user ⟨30, true⟩ 50 "fresh" 1
      [⟨"k1", 1, 0, 30, true⟩] (by simp)).2.1 ⟨"k1", 1, 0, 30, true⟩ (by decide)
  ⟨h.2, h.1⟩

/-- The two fields the authentication serializer reads from the request
body (`CustomAuthTokenSerializer`). -/
structure AuthAttrs where
  username : String
  password : String
deriving Repr, DecidableEq

/-- `CustomAuthTokenSerializer.validate` (serializers.py lines 246-265):
tries to resolve the submitted identifier as an email; when a user is
found, replaces the identifier by that user's `username` attribute (an
`Option`, since the `username` field was removed from the model); then
hands the identifier and password to the external `authenticate`
collaborator; when `authenticate` yields no user, raises the single fixed
error message — the same literal regardless of why authentication
failed. -/
def customAuthValidate (users : List User)
    (auth : Option String → String → Option User) (attrs : AuthAttrs) :
    Except String User :=
  let uname : Option String :=
    match users.find? (fun u => u.email = attrs.username) with
    | some u => u.username
    | none => some attrs.username
  match auth uname attrs.password with
  | none => Except.error "Unable to log in with provided credentials."
  | some u => Except.ok u

/-- C2: every failing login attempt — whether the identifier matched no
user or the password was wrong — produces the identical single error
message, so the two causes are indistinguishable to the caller. -/
theorem C2_login_failure_indistinguishable (users : List User)
    (auth : Option String → String → Option User) (a1 a2 : AuthAttrs)
    (e1 e2 : String)
    (h1 : customAuthValidate users auth a1 = Except.error e1)
    (h2 : customAuthValidate users auth a2 = Except.error e2) :
    e1 = e2 ∧ e1 = "Unable to log in with provided credentials." := by
  have hgen : ∀ a e, customAuthValidate users auth a = Except.error e →
      e = "Unable to log in with provided credentials." := by
    intro a e h
    simp only [customAuthValidate] at h
    split at h
    · simp only [Except.error.injEq] at h
      exact h.symm
    · simp at h
  exact ⟨(hgen a1 e1 h1).trans (hgen a2 e2 h2).symm, hgen a1 e1 h1⟩

/-- C2 witness: a directory holding one registered user; a wrong password
for the registered email and an unregistered email yield the identical
error. -/
theorem C2_login_failure_indistinguishable_witness :
    customAuthValidate [⟨1, "a@x.com", none, "hashed", true, ""⟩]
      (fun uname pw =>
        match uname with
        | none => none
        | some n =>
          if n = "a@x.com" ∧ pw = "hashed" then
            some ⟨1, "a@x.com", none, "hashed", true, ""⟩
          else none)
      ⟨"a@x.com", "wrong"⟩
      = Except.error "Unable to log in with provided credentials." ∧
    customAuthValidate [⟨1, "a@x.com", none, "hashed", true, ""⟩]
      (fun uname pw =>
        match uname with
        | none => none
        | some n =>
          if n = "a@x.com" ∧ pw = "hashed" then
            some ⟨1, "a@x.com", none, "hashed", true, ""⟩
          else none)
      ⟨"nobody@x.com", "hashed"⟩
      = Except.error "Unable to log in with provided credentials." := by
  have h := C2_login_failure_indistinguishable
    [⟨1, "a@x.com", none, "hashed", true, ""⟩]
    (fun uname pw =>
      match uname with
      | none => none
      | some n =>
        if n = "a@x.com" ∧ pw = "hashed" then
          some ⟨1, "a@x.com", none, "hashed", true, ""⟩
        else none)
    ⟨"a@x.com", "wrong"⟩ ⟨"nobody@x.com", "hashed"⟩
    "Unable to log in with provided credentials."
    "Unable to log in with provided credentials."
    rfl rfl
  exact ⟨h.2 ▸ rfl, h.1 ▸ rfl⟩

/-- Lookup of an action token by its key (the store is the persisted
`ActionToken` table; `key` is the primary key). -/
def findAction (store : List ActionToken) (key : String) : Option ActionToken :=
  store.find? (fun t => t.key = key)

/-- Persisting an updated `ActionToken` row: the row with the same primary
key is replaced. -/
def storeUpdate (store : List ActionToken) (t : ActionToken) :
    List ActionToken :=
  store.map (fun s => if s.key = t.key then t else s)

/-- In a keyed list, mapping the update that replaces the row whose key is
`k` by a fixed new value with that same key makes the lookup find exactly
the new value. -/
theorem find?_map_set {α β : Type} [DecidableEq β] (keyOf : α → β)
    (newVal : α) (k : β) (hkey : keyOf newVal = k) :
    ∀ (l : List α) (t : α), l.find? (fun s => keyOf s = k) = some t →
      (l.map (fun s => if keyOf s = k then newVal else s)).find?
        (fun s => keyOf s = k) = some newVal := by
  intro l
  induction l with
  | nil => intro t h; cases h
  | cons s l ih =>
    intro t h
    by_cases hs : keyOf s = k
    · simp only [List.map_cons, if_pos hs]
      exact List.find?_cons_of_pos _ (by simp [hkey])
    · rw [List.find?_cons_of_neg _ (by simp [hs])] at h
      simp only [List.map_cons, if_neg hs]
      rw [List.find?_cons_of_neg _ (by simp [hs])]
      exact ih t h

/-- Outcome of an action-token redemption. -/
inductive RedeemResult where
  | success (uid : Nat)
  | notFound
  | expired
  | typeMismatch
deriving Repr, DecidableEq

/-- Modelled from the spec: `ActionTokenService.redeem` (the
`UsersActivation` and `ChangePassword` views are not among the repository
sources).  Looks up the key; fails with `NotFound` when absent, `Expired`
when `now >= expires`, `TypeMismatch` when the stored type differs from
the expected one; otherwise succeeds for the owner and the record is
deleted. -/
def redeem (now : Nat) (key : String) (expected : ActionType)
    (store : List ActionToken) : RedeemResult × List ActionToken :=
  match findAction store key with
  | none => (RedeemResult.notFound, store)
  | some t =>
    if t.expires ≤ now then (RedeemResult.expired, store)
    else if t.type ≠ expected then (RedeemResult.typeMismatch, store)
    else (RedeemResult.success t.user, store.filter (fun s => ¬ (s.key = key)))

/-- C3 counterexample: explicitly expiring an `ActionToken` (the `expire`
method of models.py) does NOT delete the record — it only sets `expires`
to now and saves, and a subsequent lookup by the same key still finds
it. -/
theorem C3_expire_leaves_record :
    storeUpdate [ActionToken.mk "k1" ActionType.account_activation 7 0 100]
        ((ActionToken.mk "k1" ActionType.account_activation 7 0 100).expire
          ⟨60⟩ 50 "zz")
      = [ActionToken.mk "k1" ActionType.account_activation 7 0 50] ∧
    ¬ findAction
        (storeUpdate [ActionToken.mk "k1" ActionType.account_activation 7 0 100]
          ((ActionToken.mk "k1" ActionType.account_activation 7 0 100).expire
            ⟨60⟩ 50 "zz")) "k1"
      = none := by
  constructor
  · rfl
  · intro h
    cases h

/-- C3 amended: redemption (modelled from the spec) deletes the record, so
a second redemption of the same key returns `NotFound` and the protected
side effect is granted only by the first call; explicit expiry through the
source's `expire` method, in contrast, does not delete — it rewrites the
record in place with `expires = now`, so a lookup by key still finds
it. -/
theorem C3_single_use_amended :
    (∀ now key expected store uid store2,
      redeem now key expected store = (RedeemResult.success uid, store2) →
      findAction store2 key = none ∧
      ∀ now2 expected2,
        redeem now2 key expected2 store2 = (RedeemResult.notFound, store2)) ∧
    (∀ (cfg : ActivationTokensSettings) (now : Nat) (freshKey : String)
        (store : List ActionToken) (key : String) (t : ActionToken),
      findAction store key = some t → key ≠ "" →
      findAction (storeUpdate store (t.expire cfg now freshKey)) key
        = some { t with expires := now }) := by
  constructor
  · intro now key expected store uid store2 h
    simp only [redeem] at h
    split at h
    · simp at h
    · split at h
      · simp at h
      · split at h
        · simp at h
        · have hstore : store2 = store.filter (fun s => ¬ (s.key = key)) :=
            (congrArg Prod.snd h).symm
          have hnone : findAction store2 key = none := by
            rw [hstore]
            exact find?_filter_ne ActionToken.key key store
          refine ⟨hnone, ?_⟩
          intro now2 expected2
          simp [redeem, hnone]
  · intro cfg now freshKey store key t hf hk
    have htk : t.key = key := by
      have hp := List.find?_some hf
      simpa using hp
    subst htk
    have hexp : t.expire cfg now freshKey = { t with expires := now } := by
      simp only [ActionToken.expire, ActionToken.save]
      rw [if_neg]
      exact hk
    rw [hexp]
    exact find?_map_set ActionToken.key { t with expires := now } t.key rfl
      store t hf

/-- C3 witness: a single activation token is redeemed at time 10; the
second redemption returns `NotFound`.  Separately, expiring the token
"k2" at time 50 leaves it findable with `expires = 50`. -/
theorem C3_single_use_amended_witness :
    findAction [] "k" = none ∧
    redeem 11 "k" ActionType.account_activation []
      = (RedeemResult.notFound, []) ∧
    findAction
      (storeUpdate [ActionToken.mk "k2" ActionType.password_change 8 0 100]
        ((ActionToken.mk "k2" ActionType.password_change 8 0 100).expire
          ⟨60⟩ 50 "zz")) "k2"
      = some ⟨"k2", ActionType.password_change, 8, 0, 50⟩ :=
  have h1 := C3_single_use_amended.1 10 "k" ActionType.account_activation
    [⟨"k", ActionType.account_activation, 7, 0, 100⟩] 7 [] rfl
  have h2 := C3_single_use_amended.2 ⟨60⟩ 50 "zz"
    [⟨"k2", ActionType.password_change, 8, 0, 100⟩] "k2"
    ⟨"k2", ActionType.password_change, 8, 0, 100⟩ rfl (by decide)
  ⟨h1.1, h1.2 11 ActionType.account_activation, h2⟩

/-- The action-token expiry window would be "per-type" exactly when some
configuration gives the two token types different expiries for tokens
created at the same instant. -/
def windowsPerType : Prop :=
  ∃ cfg : ActivationTokensSettings,
    ((ActionToken.mk "" ActionType.account_activation 1 0 0).save cfg 0
        "ka").expires
      ≠ ((ActionToken.mk "" ActionType.password_change 1 0 0).save cfg 0
        "kb").expires

/-- C7 counterexample: the embedded `ActionToken.save` reads the single
setting `ACTIVATION_TOKENS['MINUTES']` for every token type, so no
configuration can give `account_activation` and `password_change` tokens
different windows — the window is not determined by the type argument. -/
theorem C7_window_not_per_type : ¬ windowsPerType := by
  intro h
  obtain ⟨cfg, hne⟩ := h
  exact hne rfl

/-- C7 amended: every fresh `ActionToken`, of either type, gets
`expires = created + ACTIVATION_TOKENS['MINUTES']` — one global window
shared by all types, not a per-type one. -/
theorem C7_expires_single_window (cfg : ActivationTokensSettings)
    (now : Nat) (k1 k2 : String) (t1 t2 : ActionToken)
    (h1 : t1.key = "") (h2 : t2.key = "") :
    (t1.save cfg now k1).expires = (t1.save cfg now k1).created + cfg.MINUTES ∧
    (t1.save cfg now k1).expires = (t2.save cfg now k2).expires := by
  simp [ActionToken.save, h1, h2]

/-- C7 witness: two fresh tokens of the two different types saved at time
5 under a 60-minute window both expire at 65. -/
theorem C7_expires_single_window_witness :
    ((ActionToken.mk "" ActionType.account_activation 1 0 0).save ⟨60⟩ 5
        "ka").expires
      = ((ActionToken.mk "" ActionType.account_activation 1 0 0).save ⟨60⟩ 5
        "ka").created + 60 ∧
    ((ActionToken.mk "" ActionType.account_activation 1 0 0).save ⟨60⟩ 5
        "ka").expires
      = ((ActionToken.mk "" ActionType.password_change 2 0 0).save ⟨60⟩ 5
        "kb").expires :=
  C7_expires_single_window ⟨60⟩ 5 "ka" "kb"
    ⟨"", ActionType.account_activation, 1, 0, 0⟩
    ⟨"", ActionType.password_change, 2, 0, 0⟩ rfl rfl

/-- The fields the signup serializer consumes.  `is_active` is listed to
show that even a submitted value cannot survive creation (the serializer
both marks the field read-only and overwrites it). -/
structure SignupPayload where
  email : String
  password : String
  is_active : Bool
  first_name : String := ""
deriving Repr, DecidableEq

/-- `UserSerializer.create` (serializers.py lines 169-189): builds the
user from the validated data, hashes the password, forces
`is_active = False`, saves, and creates exactly one `ActionToken` of type
`account_activation` for that user. -/
def UserSerializer_create (hash : String → String) (payload : SignupPayload)
    (freshUid : Nat) (cfg : ActivationTokensSettings) (now : Nat)
    (freshTokenKey : String) : User × List ActionToken :=
  let u : User :=
    { id := freshUid, email := payload.email, username := none,
      password := hash payload.password, is_active := payload.is_active,
      first_name := payload.first_name }
  let u2 : User := { u with is_active := false }
  let tok := (ActionToken.mk "" ActionType.account_activation freshUid 0
    0).save cfg now freshTokenKey
  (u2, [tok])

/-- The fields the update serializer can write.  `is_active` is among its
read-only fields (serializers.py lines 121-132), so it does not appear. -/
structure UpdatePayload where
  first_name : Option String := none
  password : Option String := none
  new_password : Option String := none
deriving Repr, DecidableEq

/-- The writable-field part of `UserUpdateSerializer.update`
(serializers.py lines 68-94, the final `super().update` step): applies the
submitted writable fields; `is_active` is read-only and never among
them. -/
def applyWritable (d : UpdatePayload) (u : User) : User :=
  match d.first_name with
  | some fn => { u with first_name := fn }
  | none => u

/-- `UserUpdateSerializer.update` (serializers.py lines 68-94): a password
change requires the old password and verifies it; every successful path
ends in `applyWritable`, so `is_active` is never touched. -/
def UserUpdateSerializer_update (hash : String → String) (inst : User)
    (d : UpdatePayload) : Except String User :=
  match d.new_password with
  | none => Except.ok (applyWritable d inst)
  | some np =>
    match d.password with
    | none => Except.error "This field is required."
    | some old =>
      if hash old = inst.password then
        Except.ok (applyWritable d { inst with password := hash np })
      else Except.error "Bad password"

/-- Modelled from the spec: the `users/activate` redemption flow (the
`UsersActivation` view is not among the repository sources).  Redeems the
presented key as an `account_activation` token; on success sets the
owner's active flag to true. -/
def activateUser (now : Nat) (key : String) (store : List ActionToken)
    (users : List User) : List User × List ActionToken × Bool :=
  match redeem now key ActionType.account_activation store with
  | (RedeemResult.success uid, store2) =>
      (users.map (fun u => if u.id = uid then { u with is_active := true }
        else u), store2, true)
  | (_, store2) => (users, store2, false)

/-- C10: signup always creates the user inactive, whatever was submitted,
together with exactly one `account_activation` token for that user; the
update interface leaves `is_active` untouched on every successful path;
and activation redemption is what sets the flag to true. -/
theorem C10_signup_inactive_one_activation_token (hash : String → String)
    (payload : SignupPayload) (freshUid : Nat)
    (cfg : ActivationTokensSettings) (now : Nat) (freshTokenKey : String) :
    (UserSerializer_create hash payload freshUid cfg now
      freshTokenKey).1.is_active = false ∧
    (UserSerializer_create hash payload freshUid cfg now
      freshTokenKey).2.length = 1 ∧
    (∀ tok ∈ (UserSerializer_create hash payload freshUid cfg now
        freshTokenKey).2,
      tok.type = ActionType.account_activation ∧ tok.user = freshUid) ∧
    (∀ inst d u2, UserUpdateSerializer_update hash inst d = Except.ok u2 →
      u2.is_active = inst.is_active) ∧
    (∀ nowA key store users uid store2,
      redeem nowA key ActionType.account_activation store
        = (RedeemResult.success uid, store2) →
      activateUser nowA key store users
        = (users.map (fun u => if u.id = uid then { u with is_active := true }
            else u), store2, true)) := by
  refine ⟨rfl, rfl, ?_, ?_, ?_⟩
  · intro tok htok
    simp only [UserSerializer_create, ActionToken.save, List.mem_singleton]
      at htok
    rw [htok]
    constructor <;> simp
  · intro inst d u2 h
    have hrest : ∀ u : User, (applyWritable d u).is_active = u.is_active := by
      intro u
      unfold applyWritable
      cases d.first_name <;> rfl
    simp only [UserUpdateSerializer_update] at h
    split at h
    · rw [Except.ok.injEq] at h
      rw [← h]
      exact hrest inst
    · split at h
      · cases h
      · split at h
        · rw [Except.ok.injEq] at h
          rw [← h]
          exact hrest _
        · cases h
  · intro nowA key store users uid store2 h
    simp [activateUser, h]

/-- C10 witness: a signup submitting `is_active = true` still yields an
inactive user and a single activation token. -/
theorem C10_signup_inactive_one_activation_token_witness :
    (UserSerializer_create (fun s => s) ⟨"e@x.com", "pw", true, ""⟩ 3 ⟨60⟩ 9
      "tk").1.is_active = false ∧
    (UserSerializer_create (fun s => s) ⟨"e@x.com", "pw", true, ""⟩ 3 ⟨60⟩ 9
      "tk").2.length = 1 :=
  ⟨(C10_signup_inactive_one_activation_token (fun s => s)
      ⟨"e@x.com", "pw", true, ""⟩ 3 ⟨60⟩ 9 "tk").1,
   (C10_signup_inactive_one_activation_token (fun s => s)
      ⟨"e@x.com", "pw", true, ""⟩ 3 ⟨60⟩ 9 "tk").2.1⟩
